import Mathlib

/-!
Shallow embedding of `custom_components/xiaomi_airfryer/fryer_miot.py`
(Xiaomi AirFryer MIoT client): the mapping table, the enumerated value
domains, the status decoder (`FryerStatusMiot`), and the command
encoder/validator methods of `FryerMiot`.

Python conventions modelled explicitly:
- a dict value can be Python `None` (`RawVal.null`), stored by
  `FryerMiot.status` whenever a property result has a nonzero code;
- `self.data[k]` on an absent key raises `KeyError` (not caught by the
  `except ValueError` blocks in the decoder properties);
- `Enum(v)` does a lookup by member *value* and raises `ValueError` on
  a miss; `Enum[k]` looks up by member *name* and raises `KeyError`;
- `_LOGGER.error(...)` calls are modelled as appending a message to an
  explicit diagnostics log threaded through the decoder, so that
  statelessness of the decoded values can be stated.
-/

namespace AirFryer

/-- A raw scalar as it appears in the snapshot dict: an integer, a string,
or Python `None` (written `null`). -/
inductive RawVal
  | int (n : Int)
  | str (s : String)
  | null
deriving DecidableEq, Repr

/-- Python exceptions that the embedded code can raise. -/
inductive PyError
  | keyError (k : String)
  | valueError
  | deviceException (msg : String)
deriving DecidableEq, Repr

/-- `True` exactly on `Except.ok`; an `Except.error` models a raised,
uncaught Python exception. -/
def okB {α : Type} : Except PyError α → Bool
  | .ok _ => true
  | .error _ => false

/-- One record of a batched property read: `{"did": ..., "code": ...,
"value": ...}` as consumed by `FryerMiot.status`. -/
structure PropResult where
  did : String
  code : Int
  value : RawVal
deriving DecidableEq, Repr

/-- The member values of the Python `Status` enum (`Unknown = -1`,
`Shutdown = 0` … `Degrease = 14`). -/
def statusValues : List Int :=
  [-1, 0, 1, 2, 3, 4, 5, 6, 7, 8, 9, 10, 11, 12, 13, 14]

/-- The member values of the Python `DeviceFault` enum
(`Unknown = -1`, `NoFaults = 0`, `E1 = 1`, `E2 = 2`, `E3 = 3`). -/
def deviceFaultValues : List Int := [-1, 0, 1, 2, 3]

/-- The member values of the Python `FoodQuanty` enum
(`Unknown = -1`, `Null = 0`, `Single = 1`, `Double = 2`, `Half = 3`,
`Full = 4`). -/
def foodQuantyValues : List Int := [-1, 0, 1, 2, 3, 4]

/-- The member values of the Python `TurnPot` enum
(`Unknown = -1`, `NotTurnPot = 0`, `SwitchOff = 1`, `TurnPot = 2`). -/
def turnPotValues : List Int := [-1, 0, 1, 2]

/-- The member values of the Python `PreheatSwitch` enum
(`Unknown = -1`, `Null = 0`, `Off = 1`, `On = 2`). -/
def preheatSwitchValues : List Int := [-1, 0, 1, 2]

/-- `IntEnum(v)`: value lookup in an integer-valued enum; raises
`ValueError` when `v` is not an `int` among the member values. -/
def enumOfRaw (dom : List Int) (v : RawVal) : Except PyError Int :=
  match v with
  | .int n => if n ∈ dom then .ok n else .error .valueError
  | _ => .error .valueError

/-- `RecipeId(v).name`: value lookup in the string-valued `RecipeId` enum
(`Manual = "M0"` … `Yogurt = "M7"`), returning the member name; raises
`ValueError` when `v` is not one of the eight tokens. -/
def recipeIdMemberName (v : RawVal) : Except PyError String :=
  match v with
  | .str s =>
    if s = "M0" then .ok "Manual"
    else if s = "M1" then .ok "FrenchFries"
    else if s = "M2" then .ok "ChickenWing"
    else if s = "M3" then .ok "SweetPotato"
    else if s = "M4" then .ok "Cake"
    else if s = "M5" then .ok "Defrost"
    else if s = "M6" then .ok "DriedFruit"
    else if s = "M7" then .ok "Yogurt"
    else .error .valueError
  | _ => .error .valueError

/-- `RecipeToCommand[name].value`: name lookup in the `RecipeToCommand`
enum, whose values are positional lists
`[recipeId, name, targetTime, targetTemperature, appointTime,
foodQuantity, preheat]`. Returns `none` (Python `KeyError`) for a name
with no member. -/
def recipeToCommand (memberName : String) : Option (List RawVal) :=
  if memberName = "Manual" then
    some [.str "M0", .str "", .int 0, .int 0, .int 0, .int 0, .int 0]
  else if memberName = "FrenchFries" then
    some [.str "M1", .str "", .int 15, .int 200, .int 0, .int 3, .int 0]
  else if memberName = "ChickenWing" then
    some [.str "M2", .str "", .int 15, .int 180, .int 0, .int 1, .int 0]
  else if memberName = "SweetPotato" then
    some [.str "M3", .str "", .int 30, .int 200, .int 0, .int 1, .int 0]
  else if memberName = "Cake" then
    some [.str "M4", .str "", .int 30, .int 160, .int 0, .int 0, .int 0]
  else if memberName = "Defrost" then
    some [.str "M5", .str "", .int 15, .int 40, .int 0, .int 0, .int 0]
  else if memberName = "DriedFruit" then
    some [.str "M6", .str "", .int 240, .int 40, .int 0, .int 0, .int 0]
  else if memberName = "Yogurt" then
    some [.str "M7", .str "", .int 480, .int 40, .int 0, .int 0, .int 0]
  else none

/-- The member values of the Python `RecipeName` enum: the localized
display names (`Manual = "Ручной"` etc.). -/
def recipeNameValues : List String :=
  ["Ручной", "Картофель Фри", "Куриные Крылья", "Сладкий картофель",
   "Разморозка", "Сухофрукты", "Йогурт", "Торт"]

/-- `RecipeName(v).value`: value lookup in the `RecipeName` enum, which
returns `v` itself when `v` is a member value and raises `ValueError`
otherwise. -/
def recipeNameOfValue (v : String) : Except PyError String :=
  if v ∈ recipeNameValues then .ok v else .error .valueError

/-- `str(x)` on the scalars appearing in recipe command lists. -/
def pyStr : RawVal → String
  | .int n => toString n
  | .str s => s
  | .null => "None"

/-- Container for status reports (`FryerStatusMiot.__init__` stores the
dict `data`). A key maps to `none` when it is absent from the dict and to
`some v` when present with value `v` (possibly `RawVal.null`). -/
structure FryerStatusMiot where
  data : String → Option RawVal

/-- `self.data[k]`: raises `KeyError` when the key is absent. -/
def FryerStatusMiot.getItem (s : FryerStatusMiot) (k : String) :
    Except PyError RawVal :=
  match s.data k with
  | none => .error (.keyError k)
  | some v => .ok v

/-- `FryerStatusMiot.is_on`:
`self.data["status"] not in [0, 1, 6, 9]` on the raw stored value. -/
def FryerStatusMiot.is_on (s : FryerStatusMiot) : Except PyError Bool :=
  match s.data "status" with
  | none => .error (.keyError "status")
  | some v => .ok (decide (v ∉ [RawVal.int 0, .int 1, .int 6, .int 9]))

/-- `FryerStatusMiot.status` with the logger state made explicit:
`try: return Status(self.data["status"]).value
except ValueError: log "Unknown Status"; return Status.Unknown.value`. -/
def FryerStatusMiot.statusLog (s : FryerStatusMiot) (log : List String) :
    Except PyError Int × List String :=
  match s.data "status" with
  | none => (.error (.keyError "status"), log)
  | some v =>
    match enumOfRaw statusValues v with
    | .ok n => (.ok n, log)
    | .error _ => (.ok (-1), log ++ ["Unknown Status"])

/-- `FryerStatusMiot.status`, value part. -/
def FryerStatusMiot.status (s : FryerStatusMiot) : Except PyError Int :=
  (s.statusLog []).1

/-- `FryerStatusMiot.device_fault` with the logger state made explicit:
falls back to `DeviceFault.Unknown.value` on `ValueError`. -/
def FryerStatusMiot.deviceFaultLog (s : FryerStatusMiot)
    (log : List String) : Except PyError Int × List String :=
  match s.data "device_fault" with
  | none => (.error (.keyError "device_fault"), log)
  | some v =>
    match enumOfRaw deviceFaultValues v with
    | .ok n => (.ok n, log)
    | .error _ => (.ok (-1), log ++ ["Unknown Device Fault"])

/-- `FryerStatusMiot.device_fault`, value part. -/
def FryerStatusMiot.device_fault (s : FryerStatusMiot) :
    Except PyError Int :=
  (s.deviceFaultLog []).1

/-- `FryerStatusMiot.target_time`: `return self.data["target_time"]`. -/
def FryerStatusMiot.target_time (s : FryerStatusMiot) :
    Except PyError RawVal :=
  s.getItem "target_time"

/-- `FryerStatusMiot.target_temperature`:
`return self.data["target_temperature"]`. -/
def FryerStatusMiot.target_temperature (s : FryerStatusMiot) :
    Except PyError RawVal :=
  s.getItem "target_temperature"

/-- `FryerStatusMiot.left_time`: `return self.data["left_time"]`. -/
def FryerStatusMiot.left_time (s : FryerStatusMiot) :
    Except PyError RawVal :=
  s.getItem "left_time"

/-- `FryerStatusMiot.recipe_id`: `return self.data["recipe_id"]`. -/
def FryerStatusMiot.recipe_id (s : FryerStatusMiot) :
    Except PyError RawVal :=
  s.getItem "recipe_id"

/-- `FryerStatusMiot.recipe_name`:
`return RecipeName(RecipeId(self.data["recipe_id"]).name).value`.
No `except` clause: any `ValueError`/`KeyError` propagates. -/
def FryerStatusMiot.recipe_name (s : FryerStatusMiot) :
    Except PyError String :=
  match s.data "recipe_id" with
  | none => .error (.keyError "recipe_id")
  | some raw =>
    match recipeIdMemberName raw with
    | .error e => .error e
    | .ok memberName => recipeNameOfValue memberName

/-- `FryerStatusMiot.appoint_time`: `return self.data["appoint_time"]`. -/
def FryerStatusMiot.appoint_time (s : FryerStatusMiot) :
    Except PyError RawVal :=
  s.getItem "appoint_time"

/-- `FryerStatusMiot.food_quanty` with the logger state made explicit:
`try: return FoodQuanty(self.data["food_quanty"])
except ValueError: log "Unknown FoodQuanty"; return FoodQuanty.Single`.
Note the source's fallback member is `Single` (value 1). The result is
the returned member's value. -/
def FryerStatusMiot.foodQuantyLog (s : FryerStatusMiot)
    (log : List String) : Except PyError Int × List String :=
  match s.data "food_quanty" with
  | none => (.error (.keyError "food_quanty"), log)
  | some v =>
    match enumOfRaw foodQuantyValues v with
    | .ok n => (.ok n, log)
    | .error _ => (.ok 1, log ++ ["Unknown FoodQuanty"])

/-- `FryerStatusMiot.food_quanty`, value part. -/
def FryerStatusMiot.food_quanty (s : FryerStatusMiot) :
    Except PyError Int :=
  (s.foodQuantyLog []).1

/-- `FryerStatusMiot.preheat_switch` with the logger state made explicit:
falls back to `PreheatSwitch.Unknown.value` on `ValueError`. -/
def FryerStatusMiot.preheatSwitchLog (s : FryerStatusMiot)
    (log : List String) : Except PyError Int × List String :=
  match s.data "preheat_switch" with
  | none => (.error (.keyError "preheat_switch"), log)
  | some v =>
    match enumOfRaw preheatSwitchValues v with
    | .ok n => (.ok n, log)
    | .error _ => (.ok (-1), log ++ ["Unknown PreheatSwitch"])

/-- `FryerStatusMiot.preheat_switch`, value part. -/
def FryerStatusMiot.preheat_switch (s : FryerStatusMiot) :
    Except PyError Int :=
  (s.preheatSwitchLog []).1

/-- `FryerStatusMiot.appoint_time_left`:
`return self.data["appoint_time_left"]`. -/
def FryerStatusMiot.appoint_time_left (s : FryerStatusMiot) :
    Except PyError RawVal :=
  s.getItem "appoint_time_left"

/-- `FryerStatusMiot.turn_pot` with the logger state made explicit:
falls back to the `TurnPot.Unknown` member on `ValueError`. The result
is the returned member's value. -/
def FryerStatusMiot.turnPotLog (s : FryerStatusMiot) (log : List String) :
    Except PyError Int × List String :=
  match s.data "turn_pot" with
  | none => (.error (.keyError "turn_pot"), log)
  | some v =>
    match enumOfRaw turnPotValues v with
    | .ok n => (.ok n, log)
    | .error _ => (.ok (-1), log ++ ["Unknown TurnPot"])

/-- `FryerStatusMiot.turn_pot`, value part. -/
def FryerStatusMiot.turn_pot (s : FryerStatusMiot) : Except PyError Int :=
  (s.turnPotLog []).1

/-- `FryerMiot.status`: builds the snapshot dict
`{prop["did"]: prop["value"] if prop["code"] == 0 else None for prop in
self.get_properties_for_mapping()}`. Dict comprehension semantics: a
later record with the same `did` overwrites an earlier one. -/
def FryerMiot.status (props : List PropResult) : FryerStatusMiot :=
  ⟨props.foldl
    (fun acc p => fun k =>
      if k = p.did then some (if p.code = 0 then p.value else RawVal.null)
      else acc k)
    (fun _ => none)⟩

/-- A protocol-level request issued through the transport: a property
write (`self.set_property`) or an action invocation (`self.call_action`),
with its optional serialized argument. -/
inductive TransportCall
  | setProperty (name : String) (value : RawVal)
  | callAction (name : String) (arg : Option String)
deriving DecidableEq, Repr

/-- `FryerMiot.appoint_time(hours)`: raises `DeviceException` when
`hours < 0 or hours > 24 * 60`, otherwise writes the property. -/
def FryerMiot.appoint_time (hours : Int) : Except PyError TransportCall :=
  if hours < 0 ∨ hours > 24 * 60 then
    .error (.deviceException
      ("Invalid value for a appoint time: " ++ toString hours))
  else .ok (.setProperty "appoint_time" (.int hours))

/-- `FryerMiot.recipe_id(recipe_id)`: no validation, writes any string. -/
def FryerMiot.recipe_id (recipeId : String) : Except PyError TransportCall :=
  .ok (.setProperty "recipe_id" (.str recipeId))

/-- `FryerMiot.food_quanty(food_quanty)`: raises `DeviceException` when
`food_quanty < 0 or food_quanty > 5`, otherwise writes the property. -/
def FryerMiot.food_quanty (foodQuanty : Int) :
    Except PyError TransportCall :=
  if foodQuanty < 0 ∨ foodQuanty > 5 then
    .error (.deviceException
      ("Invalid value for food_quanty: " ++ toString foodQuanty))
  else .ok (.setProperty "food_quanty" (.int foodQuanty))

/-- `FryerMiot.target_time(target_time)`: raises `DeviceException` when
`target_time < 1 or target_time > 1440`, otherwise writes the property. -/
def FryerMiot.target_time (targetTime : Int) :
    Except PyError TransportCall :=
  if targetTime < 1 ∨ targetTime > 1440 then
    .error (.deviceException
      ("Invalid value for target_time: " ++ toString targetTime))
  else .ok (.setProperty "target_time" (.int targetTime))

/-- `FryerMiot.target_temperature(target_temperature)`: raises
`DeviceException` when `target_temperature < 40 or
target_temperature > 200`, otherwise writes the property. -/
def FryerMiot.target_temperature (targetTemperature : Int) :
    Except PyError TransportCall :=
  if targetTemperature < 40 ∨ targetTemperature > 200 then
    .error (.deviceException
      ("Invalid value for target_temperature: " ++ toString targetTemperature))
  else .ok (.setProperty "target_temperature" (.int targetTemperature))

/-- `FryerMiot.start_custom_cook(mode)`:
`recipe_id = RecipeId(mode)` (raises `ValueError` on an unknown token),
`command = RecipeToCommand[recipe_id.name].value`,
`mode_command = ",".join([str(x) for x in command])`,
then `self.call_action("start_custom_cook", mode_command)`. -/
def FryerMiot.start_custom_cook (mode : RawVal) :
    Except PyError TransportCall :=
  match recipeIdMemberName mode with
  | .error e => .error e
  | .ok memberName =>
    match recipeToCommand memberName with
    | none => .error (.keyError memberName)
    | some cmd =>
      .ok (.callAction "start_custom_cook"
        (some (String.intercalate "," (cmd.map pyStr))))

/-- The full typed decoding of one snapshot: the result of reading every
`FryerStatusMiot` property (each a value or a raised exception). -/
structure Snapshot where
  is_on : Except PyError Bool
  status : Except PyError Int
  device_fault : Except PyError Int
  target_time : Except PyError RawVal
  target_temperature : Except PyError RawVal
  left_time : Except PyError RawVal
  recipe_id : Except PyError RawVal
  recipe_name : Except PyError String
  appoint_time : Except PyError RawVal
  food_quanty : Except PyError Int
  preheat_switch : Except PyError Int
  appoint_time_left : Except PyError RawVal
  turn_pot : Except PyError Int
deriving Repr

/-- Reading all snapshot fields in order with the logger state threaded
through the enumerated decoders (the only mutable state the decoder
touches is the module logger). -/
def decodeAll (s : FryerStatusMiot) (log : List String) :
    Snapshot × List String :=
  let a := s.statusLog log
  let b := s.deviceFaultLog a.2
  let c := s.foodQuantyLog b.2
  let d := s.preheatSwitchLog c.2
  let e := s.turnPotLog d.2
  (⟨s.is_on, a.1, b.1, s.target_time, s.target_temperature, s.left_time,
    s.recipe_id, s.recipe_name, s.appoint_time, c.1, d.1,
    s.appoint_time_left, e.1⟩, e.2)

/-- Reading all snapshot fields with the pure (value-only) accessors. -/
def decodePure (s : FryerStatusMiot) : Snapshot :=
  ⟨s.is_on, s.status, s.device_fault, s.target_time, s.target_temperature,
   s.left_time, s.recipe_id, s.recipe_name, s.appoint_time, s.food_quanty,
   s.preheat_switch, s.appoint_time_left, s.turn_pot⟩

/-- The value returned by the status decoder does not depend on the
incoming logger state. -/
theorem statusLog_fst (s : FryerStatusMiot) (log : List String) :
    (s.statusLog log).1 = s.status := by
  unfold FryerStatusMiot.status FryerStatusMiot.statusLog
  cases hd : s.data "status" with
  | none => rfl
  | some v => cases he : enumOfRaw statusValues v <;> simp [he]

/-- The value returned by the device-fault decoder does not depend on the
incoming logger state. -/
theorem deviceFaultLog_fst (s : FryerStatusMiot) (log : List String) :
    (s.deviceFaultLog log).1 = s.device_fault := by
  unfold FryerStatusMiot.device_fault FryerStatusMiot.deviceFaultLog
  cases hd : s.data "device_fault" with
  | none => rfl
  | some v => cases he : enumOfRaw deviceFaultValues v <;> simp [he]

/-- The value returned by the food-quantity decoder does not depend on
the incoming logger state. -/
theorem foodQuantyLog_fst (s : FryerStatusMiot) (log : List String) :
    (s.foodQuantyLog log).1 = s.food_quanty := by
  unfold FryerStatusMiot.food_quanty FryerStatusMiot.foodQuantyLog
  cases hd : s.data "food_quanty" with
  | none => rfl
  | some v => cases he : enumOfRaw foodQuantyValues v <;> simp [he]

/-- The value returned by the preheat-switch decoder does not depend on
the incoming logger state. -/
theorem preheatSwitchLog_fst (s : FryerStatusMiot) (log : List String) :
    (s.preheatSwitchLog log).1 = s.preheat_switch := by
  unfold FryerStatusMiot.preheat_switch FryerStatusMiot.preheatSwitchLog
  cases hd : s.data "preheat_switch" with
  | none => rfl
  | some v => cases he : enumOfRaw preheatSwitchValues v <;> simp [he]

/-- The value returned by the turn-pot decoder does not depend on the
incoming logger state. -/
theorem turnPotLog_fst (s : FryerStatusMiot) (log : List String) :
    (s.turnPotLog log).1 = s.turn_pot := by
  unfold FryerStatusMiot.turn_pot FryerStatusMiot.turnPotLog
  cases hd : s.data "turn_pot" with
  | none => rfl
  | some v => cases he : enumOfRaw turnPotValues v <;> simp [he]

/-- Reading all fields yields the same values whatever the incoming
logger state: the snapshot part of `decodeAll` is `decodePure`. -/
theorem decodeAll_fst (s : FryerStatusMiot) (log : List String) :
    (decodeAll s log).1 = decodePure s := by
  unfold decodeAll decodePure
  simp only [statusLog_fst, deviceFaultLog_fst, foodQuantyLog_fst,
    preheatSwitchLog_fst, turnPotLog_fst]

/-- Appending one record to the batch overwrites exactly its own key in
the snapshot dict. -/
theorem status_append_data (props : List PropResult) (p : PropResult)
    (k : String) :
    (FryerMiot.status (props ++ [p])).data k
      = if k = p.did then some (if p.code = 0 then p.value else RawVal.null)
        else (FryerMiot.status props).data k := by
  unfold FryerMiot.status
  simp [List.foldl_append]

/-- Membership in the operating-status domain, arithmetically. -/
theorem mem_statusValues (n : Int) :
    n ∈ statusValues ↔ n = -1 ∨ (0 ≤ n ∧ n ≤ 14) := by
  simp [statusValues]
  omega

/-- Claim C1: the claim says every enumerated field falls back to the
reserved `Unknown` variant (value -1) on an out-of-domain raw value; the
source's `food_quanty` fallback branch instead returns
`FoodQuanty.Single` (value 1). Evaluating the decoder at the raw value 99
exhibits the divergence. -/
theorem food_quanty_fallback_is_single :
    (FryerStatusMiot.mk
      (fun k => if k = "food_quanty" then some (.int 99) else none)).food_quanty
      = .ok 1
    ∧ (FryerStatusMiot.mk
      (fun k => if k = "food_quanty" then some (.int 99) else none)).food_quanty
      ≠ .ok (-1) := by
  constructor
  · rfl
  · intro h
    have h1 : (Except.ok 1 : Except PyError Int) = .ok (-1) := h
    exact absurd (Except.ok.inj h1) (by decide)

/-- Claim C2, counterexample: for a batch in which `device_fault` is
missing entirely, reading the snapshot's `device_fault` field raises
`KeyError` rather than yielding Unknown/absent. -/
theorem device_fault_missing_raises :
    (FryerMiot.status [⟨"status", 0, .int 4⟩]).device_fault
      = .error (.keyError "device_fault") := rfl

/-- Claim C2, amended: for a batch in which `device_fault` is present but
carries a non-success status code, the snapshot stores Python `None` for
it, reading `device_fault` yields `Unknown` (-1), and every other
property's stored value is unaffected. -/
theorem device_fault_failure_code_decodes_unknown
    (props : List PropResult) (c : Int) (v : RawVal) (hc : c ≠ 0) :
    (FryerMiot.status (props ++ [⟨"device_fault", c, v⟩])).device_fault
      = .ok (-1)
    ∧ ∀ k, k ≠ "device_fault" →
        (FryerMiot.status (props ++ [⟨"device_fault", c, v⟩])).data k
          = (FryerMiot.status props).data k := by
  constructor
  · have hd : (FryerMiot.status
        (props ++ [⟨"device_fault", c, v⟩])).data "device_fault"
        = some RawVal.null := by
      rw [status_append_data]
      simp [hc]
    unfold FryerStatusMiot.device_fault FryerStatusMiot.deviceFaultLog
    rw [hd]
    rfl
  · intro k hk
    rw [status_append_data]
    simp [hk]

/-- Claim C2, witness for the amended theorem at a concrete batch. -/
theorem device_fault_failure_code_decodes_unknown_witness :
    (FryerMiot.status ([] ++ [⟨"device_fault", 1, .int 0⟩])).device_fault
      = .ok (-1) :=
  (device_fault_failure_code_decodes_unknown [] 1 (.int 0) (by decide)).1

/-- Claim C3: `start_custom_cook` resolves its token against the recipe
preset table, failing for a token not in the table (for example "M9"),
and on success serializes the seven preset fields in order
id, name (empty), targetTime, targetTemperature, appointTime,
foodQuantity, preheatFlag as one comma-delimited string; in particular
"M1" submits exactly "M1,,15,200,0,3,0". -/
theorem start_custom_cook_encoding :
    FryerMiot.start_custom_cook (.str "M0")
      = .ok (.callAction "start_custom_cook" (some "M0,,0,0,0,0,0"))
  ∧ FryerMiot.start_custom_cook (.str "M1")
      = .ok (.callAction "start_custom_cook" (some "M1,,15,200,0,3,0"))
  ∧ FryerMiot.start_custom_cook (.str "M2")
      = .ok (.callAction "start_custom_cook" (some "M2,,15,180,0,1,0"))
  ∧ FryerMiot.start_custom_cook (.str "M3")
      = .ok (.callAction "start_custom_cook" (some "M3,,30,200,0,1,0"))
  ∧ FryerMiot.start_custom_cook (.str "M4")
      = .ok (.callAction "start_custom_cook" (some "M4,,30,160,0,0,0"))
  ∧ FryerMiot.start_custom_cook (.str "M5")
      = .ok (.callAction "start_custom_cook" (some "M5,,15,40,0,0,0"))
  ∧ FryerMiot.start_custom_cook (.str "M6")
      = .ok (.callAction "start_custom_cook" (some "M6,,240,40,0,0,0"))
  ∧ FryerMiot.start_custom_cook (.str "M7")
      = .ok (.callAction "start_custom_cook" (some "M7,,480,40,0,0,0"))
  ∧ FryerMiot.start_custom_cook (.str "M9") = .error .valueError :=
  ⟨rfl, rfl, rfl, rfl, rfl, rfl, rfl, rfl, rfl⟩

/-- Claim C4: for every integer raw status value in 0..14 the decoded
operating status is that exact value, and for every integer outside
0..14 it is `Unknown` (-1); in all cases decoding returns a value and
raises nothing. -/
theorem status_decode_total (n : Int) :
    (FryerStatusMiot.mk
      (fun k => if k = "status" then some (.int n) else none)).status
      = .ok (if 0 ≤ n ∧ n ≤ 14 then n else -1) := by
  have hd : (FryerStatusMiot.mk
      (fun k => if k = "status" then some (.int n) else none)).data "status"
      = some (.int n) := by simp
  unfold FryerStatusMiot.status FryerStatusMiot.statusLog
  rw [hd]
  by_cases h : n ∈ statusValues
  · rcases (mem_statusValues n).mp h with h1 | h2
    · subst h1
      simp [enumOfRaw, statusValues]
    · simp [enumOfRaw, h, h2]
  · have h2 : ¬(0 ≤ n ∧ n ≤ 14) :=
      fun hc => h ((mem_statusValues n).mpr (Or.inr hc))
    simp [enumOfRaw, h, h2]

/-- Claim C5: each ranged setter succeeds exactly on its inclusive
domain — appoint time on [0, 1440], target time on [1, 1440], target
temperature on [40, 200], food quantity on [0, 5] — and outside its
domain fails with the out-of-range `DeviceException`. -/
theorem setter_ranges (n : Int) :
    (okB (FryerMiot.appoint_time n) = true ↔ 0 ≤ n ∧ n ≤ 1440)
  ∧ (okB (FryerMiot.target_time n) = true ↔ 1 ≤ n ∧ n ≤ 1440)
  ∧ (okB (FryerMiot.target_temperature n) = true ↔ 40 ≤ n ∧ n ≤ 200)
  ∧ (okB (FryerMiot.food_quanty n) = true ↔ 0 ≤ n ∧ n ≤ 5)
  ∧ (¬(0 ≤ n ∧ n ≤ 1440) → FryerMiot.appoint_time n
      = .error (.deviceException
          ("Invalid value for a appoint time: " ++ toString n)))
  ∧ (¬(1 ≤ n ∧ n ≤ 1440) → FryerMiot.target_time n
      = .error (.deviceException
          ("Invalid value for target_time: " ++ toString n)))
  ∧ (¬(40 ≤ n ∧ n ≤ 200) → FryerMiot.target_temperature n
      = .error (.deviceException
          ("Invalid value for target_temperature: " ++ toString n)))
  ∧ (¬(0 ≤ n ∧ n ≤ 5) → FryerMiot.food_quanty n
      = .error (.deviceException
          ("Invalid value for food_quanty: " ++ toString n))) := by
  refine ⟨?_, ?_, ?_, ?_,
    fun hc => ?_, fun hc => ?_, fun hc => ?_, fun hc => ?_⟩
  · unfold FryerMiot.appoint_time
    split_ifs with h <;> simp [okB] <;> omega
  · unfold FryerMiot.target_time
    split_ifs with h <;> simp [okB] <;> omega
  · unfold FryerMiot.target_temperature
    split_ifs with h <;> simp [okB] <;> omega
  · unfold FryerMiot.food_quanty
    split_ifs with h <;> simp [okB] <;> omega
  · unfold FryerMiot.appoint_time
    rw [if_pos (by omega)]
  · unfold FryerMiot.target_time
    rw [if_pos (by omega)]
  · unfold FryerMiot.target_temperature
    rw [if_pos (by omega)]
  · unfold FryerMiot.food_quanty
    rw [if_pos (by omega)]

/-- Claim C5, witness: target time rejects 0 with the out-of-range
exception, at a concrete boundary input. -/
theorem setter_ranges_witness :
    FryerMiot.target_time 0
      = .error (.deviceException
          ("Invalid value for target_time: " ++ toString (0 : Int))) :=
  (setter_ranges 0).2.2.2.2.2.1 (by omega)

/-- Claim C6: the claim says `recipe_name` resolves the decoded
`recipe_id` token and returns the preset's display name; in the source
`RecipeName(...)` is a lookup by member value applied to a member name,
so the derivation raises `ValueError` for every snapshot — including
ones whose `recipe_id` is a valid token — and never returns a name. -/
theorem recipe_name_never_ok (s : FryerStatusMiot) :
    okB s.recipe_name = false := by
  unfold FryerStatusMiot.recipe_name
  cases hd : s.data "recipe_id" with
  | none => rfl
  | some raw =>
    cases raw with
    | int n => rfl
    | null => rfl
    | str t =>
      simp only [recipeIdMemberName]
      split_ifs <;> rfl

/-- Claim C7: for every snapshot whose stored raw status is the integer
`n`, the is-powered-on predicate is true exactly when `n` is not one of
the powered-off raw values 0, 1, 6, 9. -/
theorem is_on_decodes_raw_status (s : FryerStatusMiot) (n : Int)
    (h : s.data "status" = some (.int n)) :
    s.is_on = .ok (decide (¬(n = 0 ∨ n = 1 ∨ n = 6 ∨ n = 9))) := by
  unfold FryerStatusMiot.is_on
  rw [h]
  simp [decide_eq_decide]

/-- Claim C7, witness at the concrete raw status 4 (Cooking). -/
theorem is_on_decodes_raw_status_witness :
    (FryerStatusMiot.mk
      (fun k => if k = "status" then some (.int 4) else none)).is_on
      = .ok (decide (¬((4 : Int) = 0 ∨ (4 : Int) = 1
          ∨ (4 : Int) = 6 ∨ (4 : Int) = 9))) :=
  is_on_decodes_raw_status _ 4 rfl

/-- Claim C8: every command operation given an argument violating its
domain constraint returns the validation failure without producing any
transport request (no property write, no action invocation). -/
theorem invalid_argument_yields_no_transport_call (n : Int) (m : RawVal) :
    (¬(0 ≤ n ∧ n ≤ 1440) → okB (FryerMiot.appoint_time n) = false)
  ∧ (¬(1 ≤ n ∧ n ≤ 1440) → okB (FryerMiot.target_time n) = false)
  ∧ (¬(40 ≤ n ∧ n ≤ 200) → okB (FryerMiot.target_temperature n) = false)
  ∧ (¬(0 ≤ n ∧ n ≤ 5) → okB (FryerMiot.food_quanty n) = false)
  ∧ (okB (recipeIdMemberName m) = false
      → okB (FryerMiot.start_custom_cook m) = false) := by
  refine ⟨fun hc => ?_, fun hc => ?_, fun hc => ?_, fun hc => ?_,
    fun hc => ?_⟩
  · unfold FryerMiot.appoint_time
    rw [if_pos (by omega)]
    rfl
  · unfold FryerMiot.target_time
    rw [if_pos (by omega)]
    rfl
  · unfold FryerMiot.target_temperature
    rw [if_pos (by omega)]
    rfl
  · unfold FryerMiot.food_quanty
    rw [if_pos (by omega)]
    rfl
  · unfold FryerMiot.start_custom_cook
    cases he : recipeIdMemberName m with
    | ok w =>
      rw [he] at hc
      simp [okB] at hc
    | error e => rfl

/-- Claim C8, witness: the appoint-time setter at 1441 issues no
transport call. -/
theorem invalid_argument_yields_no_transport_call_witness :
    okB (FryerMiot.appoint_time 1441) = false :=
  (invalid_argument_yields_no_transport_call 1441 (.str "M9")).1 (by omega)

/-- Claim C9: decoding the same raw batch twice — reading every snapshot
field, with the logger in arbitrary (possibly different) states — yields
identical snapshots: the decoded values depend only on the batch. -/
theorem decode_same_batch_twice_identical (props : List PropResult)
    (l1 l2 : List String) :
    (decodeAll (FryerMiot.status props) l1).1
      = (decodeAll (FryerMiot.status props) l2).1 := by
  rw [decodeAll_fst, decodeAll_fst]

/-- Claim C10: when the `status` property comes back with a non-success
code, the snapshot stores Python `None` for it, and the is-powered-on
predicate evaluates to true because `None` is not among the powered-off
raw values 0, 1, 6, 9. -/
theorem is_on_true_for_failure_coded_status (props : List PropResult)
    (c : Int) (v : RawVal) (hc : c ≠ 0) :
    (FryerMiot.status (props ++ [⟨"status", c, v⟩])).is_on = .ok true := by
  have hd : (FryerMiot.status (props ++ [⟨"status", c, v⟩])).data "status"
      = some RawVal.null := by
    rw [status_append_data]
    simp [hc]
  unfold FryerStatusMiot.is_on
  rw [hd]
  rfl

/-- Claim C10, witness at a concrete batch with a failure-coded status. -/
theorem is_on_true_for_failure_coded_status_witness :
    (FryerMiot.status ([] ++ [⟨"status", 1, .int 3⟩])).is_on = .ok true :=
  is_on_true_for_failure_coded_status [] 1 (.int 3) (by decide)

end AirFryer
